import Mathlib

/-!
A shallow embedding of txdarn's core protocol implementation
(`txdarn/protocol.py`): the SockJS wire codec, the
`RequestSessionMachine` state machine, the
`RequestSessionProtocolWrapper` adapter together with its transport
specialisations (`XHRSession`, `XHRStreamingSession`), the
`WebSocketProtocolWrapper` inbound filter, and the `SessionHouse`
registry.  Requests are identified by natural numbers; byte strings are
modelled as `String` (all payloads of interest are ASCII); JSON values
are a small inductive; fallible Python code returns `Except` or sets an
error flag on the session.
-/

namespace Txdarn

/-! ## JSON values and `sockJSJSON` (the codec) -/

/-- A JSON value, as produced by Python's `json` module.  Numbers are
restricted to integers: every numeric literal that appears in the
protocol (close codes 3000 and 2010) is integral. -/
inductive Json where
  | str (s : String)
  | num (n : Int)
  | bool (b : Bool)
  | null
  | arr (elems : List Json)
  | obj (fields : List (String × Json))

/-- Escaping of one character inside a JSON string literal, as
`json.dumps` performs it.  The payloads in this development contain no
control characters and no non-ASCII characters, so only the mandatory
escapes are spelled out. -/
def escapeChar (c : Char) : String :=
  if c = '"' then "\\\""
  else if c = '\\' then "\\\\"
  else if c = '\n' then "\\n"
  else if c = '\r' then "\\r"
  else if c = '\t' then "\\t"
  else String.singleton c

/-- Escape a whole JSON string body. -/
def jsonEscape (s : String) : String :=
  String.join (s.data.map escapeChar)

mutual

/-- Source: `sockJSJSON(data)`: JSON encoding with `separators=(',', ':')`,
i.e. no inter-token whitespace. -/
def encodeJson : Json → String
  | .str s => "\"" ++ jsonEscape s ++ "\""
  | .num n => toString n
  | .bool true => "true"
  | .bool false => "false"
  | .null => "null"
  | .arr elems => "[" ++ encodeJsonList elems ++ "]"
  | .obj fields => "\x7b" ++ encodeJsonFields fields ++ "\x7d"

/-- Comma-separated encoding of array elements. -/
def encodeJsonList : List Json → String
  | [] => ""
  | [x] => encodeJson x
  | x :: y :: rest => encodeJson x ++ "," ++ encodeJsonList (y :: rest)

/-- Comma-separated encoding of object members (`key:value`). -/
def encodeJsonFields : List (String × Json) → String
  | [] => ""
  | [(k, v)] => "\"" ++ jsonEscape k ++ "\":" ++ encodeJson v
  | (k, v) :: y :: rest =>
      "\"" ++ jsonEscape k ++ "\":" ++ encodeJson v ++ "," ++
        encodeJsonFields (y :: rest)

end

/-- Source: `sockJSJSON` is `asJSON` with compact separators; encoding hooks
(`cls`) default to `None` and are not used by the frames below. -/
def sockJSJSON (data : Json) : String := encodeJson data

/-- Python truthiness of a decoded JSON value (`if decoded:`).  Falsy:
`null`, `false`, `0`, the empty string, the empty array, the empty
object. -/
def pyTruthy : Json → Bool
  | .str s => !s.isEmpty
  | .num n => n != 0
  | .bool b => b
  | .null => false
  | .arr elems => !elems.isEmpty
  | .obj fields => !fields.isEmpty

/-! ## Close reasons (`DISCONNECT`) and frames -/

/-- The `DISCONNECT` constants. -/
inductive Disconnect where
  | goAway
  | stillOpen
deriving DecidableEq, Repr

/-- Source: `DISCONNECT.GO_AWAY.value` and `DISCONNECT.STILL_OPEN.value`. -/
def Disconnect.value : Disconnect → Json
  | .goAway => .arr [.num 3000, .str "Go away!"]
  | .stillOpen => .arr [.num 2010, .str "Another connection still open"]

/-- Source: `SockJSWireProtocolWrapper.closeFrame(reason)`:
`b'c' + sockJSJSON(reason.value)`. -/
def closeFrame (reason : Disconnect) : String :=
  "c" ++ sockJSJSON reason.value

/-- The body of `SockJSWireProtocolWrapper.writeData`:
`b'a' + sockJSJSON(data)` for a list of messages. -/
def dataFrame (messages : List Json) : String :=
  "a" ++ sockJSJSON (.arr messages)

/-- Source: `XHRStreamingSession.prelude = b'h' * 2048`. -/
def preludeBytes : String := String.mk (List.replicate 2048 'h')

/-! ## `SockJSWireProtocolWrapper.dataReceived` (the inbound codec) -/

/-- The messages carried by `INVALID_DATA`. -/
def NO_PAYLOAD : String := "Payload expected.\n"

/-- The `INVALID_DATA.BAD_JSON` message. -/
def BAD_JSON : String := "Broken JSON encoding.\n"

/-- The `InvalidData` exception, carrying its `reason` bytes. -/
inductive WireError where
  | invalidData (reason : String)
deriving DecidableEq, Repr

/-- Source: `SockJSWireProtocolWrapper.dataReceived(data)`.  `decode` stands for
`fromJSON` with the factory's pluggable `jsonDecoder`; `none` models a
raised `ValueError`.  `.ok v` means the decoded value was handed to
`jsonReceived`, which passes it to the wrapped protocol. -/
def wireDataReceived (decode : String → Option Json) (data : String) :
    Except WireError Json :=
  if data = "" then .error (.invalidData NO_PAYLOAD)
  else
    match decode data with
    | none => .error (.invalidData BAD_JSON)
    | some decoded => .ok decoded

/-! ## `WebSocketProtocolWrapper` inbound filtering -/

/-- What `WebSocketProtocolWrapper.dataReceived` does with one inbound
message. -/
inductive WSAction where
  | ignored
  | delivered (decoded : Json)
  | discarded
  | connectionLostOnBadJson

/-- Source: `WebSocketProtocolWrapper.dataReceived` followed by its overridden
`jsonReceived`: empty input returns immediately; `InvalidData` from the
wire codec is caught and the connection is closed; a decoded value is
handed to the wrapped protocol only when truthy. -/
def webSocketDataReceived (decode : String → Option Json) (data : String) :
    WSAction :=
  if data = "" then .ignored
  else
    match wireDataReceived decode data with
    | .error _ => .connectionLostOnBadJson
    | .ok decoded => if pyTruthy decoded then .delivered decoded else .discarded

/-! ## `RequestSessionMachine`: states, inputs, outputs, transition table

The machine is automat's `MethodicalMachine`: on an input it first moves
to the target state and then runs the listed outputs in order (so an
output that feeds a new input back into the machine, as `_flushBuffer`
does through `writeData`, sees the machine already in the target
state).  An input with no transition from the current state raises
`NoTransition`, modelled as `none`. -/

/-- The states of `RequestSessionMachine`. -/
inductive MState where
  | neverConnected
  | connectedHaveTransport
  | connectedNoTransportEmptyBuffer
  | connectedNoTransportPending
  | loseConnectionEmptyBuffer
  | loseConnectionPending
  | disconnected
deriving DecidableEq, Repr

/-- The reason handed to `connectionLost`.  `_timedOut` only inspects
whether it wraps `twisted.internet.error.ConnectionDone`. -/
inductive LostReason where
  | connectionDone
  | other (tag : String)
deriving DecidableEq, Repr

/-- The inputs of `RequestSessionMachine`.  Requests are identified by
`Nat`; Python's `is` on request objects is equality of identifiers. -/
inductive MInput where
  | attach (request : Nat)
  | detach
  | write (data : List Json)
  | receive (data : String)
  | writeClose (reason : Disconnect)
  | heartbeat
  | loseConnection
  | connectionLost (reason : LostReason)

/-- The outputs of `RequestSessionMachine`, with the input's arguments
already substituted in.  Each constructor corresponds to one
`@_machine.output()` method of the source. -/
inductive MOutput where
  | openRequest (request : Nat)
  | establishConnection (request : Nat)
  | beginRequest
  | completeConnection
  | completeDataReceived (data : String)
  | bufferWrite (data : List Json)
  | flushBuffer (request : Nat)
  | dumpBuffer
  | directWrite (data : List Json)
  | directHeartbeat
  | closeRequest
  | closeDuplicateRequest (request : Nat)
  | loseConnectionOutput
  | storeCloseReason (reason : Disconnect)
  | writeCloseReason (request : Nat)
  | dropRequest
  | closeProtocol (reason : LostReason)
  | timedOut (reason : LostReason)

/-- The transition table of `RequestSessionMachine`, transcribed from
the `upon` declarations. -/
def machineStep : MState → MInput → Option (MState × List MOutput)
  | .neverConnected, .attach r =>
      some (.connectedHaveTransport,
        [.openRequest r, .establishConnection r, .beginRequest,
         .completeConnection])
  | .connectedHaveTransport, .write d =>
      some (.connectedHaveTransport, [.directWrite d])
  | .connectedHaveTransport, .receive d =>
      some (.connectedHaveTransport, [.completeDataReceived d])
  | .connectedHaveTransport, .heartbeat =>
      some (.connectedHaveTransport, [.directHeartbeat])
  | .connectedHaveTransport, .detach =>
      some (.connectedNoTransportEmptyBuffer, [.closeRequest])
  | .connectedHaveTransport, .attach r =>
      some (.connectedHaveTransport, [.closeDuplicateRequest r])
  | .connectedHaveTransport, .writeClose reason =>
      some (.connectedHaveTransport, [.storeCloseReason reason])
  | .connectedHaveTransport, .loseConnection =>
      some (.loseConnectionEmptyBuffer, [.closeRequest, .loseConnectionOutput])
  | .connectedHaveTransport, .connectionLost reason =>
      some (.disconnected, [.dropRequest, .closeProtocol reason])
  | .connectedNoTransportEmptyBuffer, .write d =>
      some (.connectedNoTransportPending, [.bufferWrite d])
  | .connectedNoTransportEmptyBuffer, .receive d =>
      some (.connectedNoTransportEmptyBuffer, [.completeDataReceived d])
  | .connectedNoTransportEmptyBuffer, .heartbeat =>
      some (.connectedNoTransportEmptyBuffer, [])
  | .connectedNoTransportEmptyBuffer, .attach r =>
      some (.connectedHaveTransport, [.openRequest r, .beginRequest])
  | .connectedNoTransportEmptyBuffer, .detach =>
      some (.connectedNoTransportEmptyBuffer, [])
  | .connectedNoTransportEmptyBuffer, .writeClose reason =>
      some (.connectedNoTransportEmptyBuffer, [.storeCloseReason reason])
  | .connectedNoTransportEmptyBuffer, .loseConnection =>
      some (.loseConnectionEmptyBuffer, [.loseConnectionOutput])
  | .connectedNoTransportEmptyBuffer, .connectionLost reason =>
      some (.disconnected, [.closeProtocol reason])
  | .loseConnectionEmptyBuffer, .attach r =>
      some (.loseConnectionEmptyBuffer, [.writeCloseReason r])
  | .loseConnectionEmptyBuffer, .receive _ =>
      some (.loseConnectionEmptyBuffer, [])
  | .loseConnectionEmptyBuffer, .connectionLost reason =>
      some (.disconnected, [.closeProtocol reason])
  | .connectedNoTransportPending, .write d =>
      some (.connectedNoTransportPending, [.bufferWrite d])
  | .connectedNoTransportPending, .receive d =>
      some (.connectedNoTransportPending, [.completeDataReceived d])
  | .connectedNoTransportPending, .heartbeat =>
      some (.connectedNoTransportPending, [])
  | .connectedNoTransportPending, .attach r =>
      some (.connectedHaveTransport, [.openRequest r, .flushBuffer r])
  | .connectedNoTransportPending, .detach =>
      some (.connectedNoTransportPending, [])
  | .connectedNoTransportPending, .writeClose reason =>
      some (.connectedNoTransportPending, [.storeCloseReason reason])
  | .connectedNoTransportPending, .loseConnection =>
      some (.loseConnectionPending, [.dumpBuffer, .loseConnectionOutput])
  | .connectedNoTransportPending, .connectionLost reason =>
      some (.disconnected, [.dropRequest, .timedOut reason])
  | .loseConnectionPending, .connectionLost reason =>
      some (.disconnected, [.timedOut reason])
  | .loseConnectionPending, .attach r =>
      some (.loseConnectionPending, [.writeCloseReason r])
  | .loseConnectionPending, .receive _ =>
      some (.loseConnectionPending, [])
  | .loseConnectionPending, .detach =>
      some (.loseConnectionPending, [])
  | _, _ => none

/-! ## `RequestSessionProtocolWrapper` and its transport specialisations

The wrapper holds the machine, the current request, the
`TimeoutClock`, and the `disconnecting` flag.  Effects on the outside
world (bytes written to a request, `request.finish()`, calls into the
wrapped application protocol, losing the wire transport) are recorded
as an ordered event log.  The wrapped protocol is a `SockJSProtocol`,
whose `connectionMade` (reached through `completeConnection`) writes
the open frame through the transport's `writeOpen`.

A raised Python exception (failed `assert`, `NoTransition`,
`request.write` on `None`, `RuntimeError` from an expired
`TimeoutClock`) sets the `err` flag; once set, nothing further runs, so
the log and state reflect exactly what happened before the raise. -/

/-- Source: `SessionTimeout` conversion: the reason with which the wrapped
protocol's `connectionLost` is invoked. -/
inductive AppLostReason where
  | sessionTimeout
  | passedThrough (reason : LostReason)
deriving DecidableEq, Repr

/-- Externally visible effects, in order of occurrence. -/
inductive Event where
  | wrote (request : Nat) (bytes : String)
  | finishedRequest (request : Nat)
  | appConnectionMade
  | appDataReceived (decoded : Json)
  | appConnectionLost (reason : AppLostReason)
  | wireConnectionLost

/-- The state of one session: `RequestSessionMachine` fields
(`machineState`, `buffer`, `_closeReason`) plus
`RequestSessionProtocolWrapper` fields. -/
structure Session where
  machineState : MState := .neverConnected
  buffer : List Json := []
  closeReason : Option Disconnect := none
  request : Option Nat := none
  finishedNotifier : Bool := false
  timeoutArmed : Bool := false
  timeoutExpired : Bool := false
  disconnecting : Bool := false
  bytesWritten : Nat := 0
  err : Bool := false

/-- A session together with its event log. -/
structure Cfg where
  session : Session
  events : List Event

/-- A freshly constructed `RequestSessionProtocolWrapper`: machine in
its initial state, empty buffer, no request, timeout clock idle. -/
def initialCfg : Cfg := { session := {}, events := [] }

/-- The transport specialisation in use. -/
inductive Transport where
  | plain
  | xhr
  | xhrStreaming (maximumBytes : Nat)
deriving DecidableEq, Repr

/-- The factory-level configuration: which transport subclass built the
wrapper, and `fromJSON` with the configured `jsonDecoder` (`none`
models a raised `ValueError`). -/
structure Env where
  transport : Transport
  decode : String → Option Json

namespace Cfg

/-- Mark a raised Python exception. -/
def setErr (cfg : Cfg) : Cfg :=
  { cfg with session := { cfg.session with err := true } }

/-- Append one event. -/
def emit (cfg : Cfg) (e : Event) : Cfg :=
  { cfg with events := cfg.events ++ [e] }

/-- Source: `RequestSessionProtocolWrapper.write(data)`:
`self.request.write(data + b'\n')`.  With no current request the
attribute access on `None` raises. -/
def write (cfg : Cfg) (data : String) : Cfg :=
  match cfg.session.request with
  | some r => cfg.emit (.wrote r (data ++ "\n"))
  | none => cfg.setErr

/-- Source: `RequestSessionProtocolWrapper.closeOtherRequest(request, reason)`:
write the close frame plus newline to that request and finish it. -/
def closeOtherRequest (cfg : Cfg) (r : Nat) (reason : Disconnect) : Cfg :=
  (cfg.emit (.wrote r (closeFrame reason ++ "\n"))).emit (.finishedRequest r)

/-- Source: `TimeoutClock.reset()`: raises when expired, else cancels any
pending expiry. -/
def timeoutReset (cfg : Cfg) : Cfg :=
  if cfg.session.timeoutExpired then cfg.setErr
  else { cfg with session := { cfg.session with timeoutArmed := false } }

/-- Source: `TimeoutClock.start()`: raises when expired, else arms the expiry
if it is not already armed. -/
def timeoutStart (cfg : Cfg) : Cfg :=
  if cfg.session.timeoutExpired then cfg.setErr
  else { cfg with session := { cfg.session with timeoutArmed := true } }

/-- Source: `TimeoutClock.stop()`: cancels a pending expiry; idempotent; no
effect when expired. -/
def timeoutStop (cfg : Cfg) : Cfg :=
  if cfg.session.timeoutExpired then cfg
  else { cfg with session := { cfg.session with timeoutArmed := false } }

/-- Source: `RequestSessionProtocolWrapper.finishCurrentRequest`: cancel the
finished-notifier (the cancellation is trapped), finish the current
request, null it out, and start the timeout clock. -/
def finishCurrentRequest (cfg : Cfg) : Cfg :=
  match cfg.session.request with
  | none => cfg.setErr
  | some r =>
      let cfg := cfg.emit (.finishedRequest r)
      let cfg := { cfg with
        session := { cfg.session with request := none, finishedNotifier := false } }
      cfg.timeoutStart

/-- Source: `RequestSessionProtocolWrapper.beginRequest`: obtain the
finished-notifier from the current request and reset the timeout
clock. -/
def beginRequest (cfg : Cfg) : Cfg :=
  ({ cfg with session := { cfg.session with finishedNotifier := true } }).timeoutReset

end Cfg

/-- Python `len` of a decoded message, as `sum(map(len, data))` in
`XHRStreamingSession.completeWrite` applies it: character count of a
string, element count of an array or object; `len` of a number, a
boolean or `None` raises `TypeError`. -/
def pyLen : Json → Option Nat
  | .str s => some s.length
  | .arr elems => some elems.length
  | .obj fields => some fields.length
  | _ => none

/-- Source: `sum(map(len, data))`. -/
def pyLenSum : List Json → Option Nat
  | [] => some 0
  | x :: xs =>
      match pyLen x, pyLenSum xs with
      | some n, some m => some (n + m)
      | _, _ => none

/-- Source: `writeOpen`, dispatched on the transport subclass:
`RequestSessionProtocolWrapper.writeOpen` writes `b'o'`;
`XHRSession.writeOpen` additionally detaches;
`XHRStreamingSession.writeOpen` first writes the prelude.  `recur`
feeds an input back into the state machine (`detachFromRequest`). -/
def writeOpen (recur : Cfg → MInput → Cfg) (env : Env) (cfg : Cfg) : Cfg :=
  match env.transport with
  | .plain => cfg.write "o"
  | .xhr => recur (cfg.write "o") .detach
  | .xhrStreaming _ => (cfg.write preludeBytes).write "o"

/-- Source: `completeWrite`, dispatched on the transport subclass: the base
class serialises the data frame to the request;
`XHRStreamingSession.completeWrite` additionally counts
`sum(map(len, data))` and, once `bytesWritten` reaches
`maximumBytes`, zeroes the counter and detaches. -/
def completeWrite (recur : Cfg → MInput → Cfg) (env : Env) (cfg : Cfg)
    (data : List Json) : Cfg :=
  let cfg := cfg.write (dataFrame data)
  match env.transport with
  | .xhrStreaming maximumBytes =>
      match pyLenSum data with
      | none => cfg.setErr
      | some n =>
          let total := cfg.session.bytesWritten + n
          if maximumBytes ≤ total then
            recur { cfg with session := { cfg.session with bytesWritten := 0 } }
              .detach
          else { cfg with session := { cfg.session with bytesWritten := total } }
  | _ => cfg

/-- Source: `writeData`, dispatched on the transport subclass:
`RequestSessionProtocolWrapper.writeData` feeds `write(data)` into the
machine; `XHRSession.writeData` additionally detaches afterwards. -/
def wrapperWriteData (recur : Cfg → MInput → Cfg) (env : Env) (cfg : Cfg)
    (data : List Json) : Cfg :=
  match env.transport with
  | .xhr => recur (recur cfg (.write data)) .detach
  | _ => recur cfg (.write data)

/-- Run one machine output.  Each branch follows the body of the
corresponding `@_machine.output()` method together with the
`RequestSessionProtocolWrapper` method it calls. -/
def runOutput (recur : Cfg → MInput → Cfg) (env : Env) (cfg : Cfg) :
    MOutput → Cfg
  | .openRequest r =>
      match cfg.session.request with
      | none => { cfg with session := { cfg.session with request := some r } }
      | some _ => cfg.setErr
  | .establishConnection _ => cfg
  | .beginRequest => cfg.beginRequest
  | .completeConnection =>
      writeOpen recur env (cfg.emit .appConnectionMade)
  | .completeDataReceived data =>
      match wireDataReceived env.decode data with
      | .error _ => cfg.setErr
      | .ok decoded => cfg.emit (.appDataReceived decoded)
  | .bufferWrite data =>
      { cfg with session := { cfg.session with buffer := cfg.session.buffer ++ data } }
  | .flushBuffer r =>
      match cfg.session.request with
      | some r' =>
          if r' = r then
            let cfg := wrapperWriteData recur env cfg cfg.session.buffer
            { cfg with session := { cfg.session with buffer := [] } }
          else cfg.setErr
      | none => cfg.setErr
  | .dumpBuffer => { cfg with session := { cfg.session with buffer := [] } }
  | .directWrite data => completeWrite recur env cfg data
  | .directHeartbeat => cfg.write "h"
  | .closeRequest => cfg.finishCurrentRequest
  | .closeDuplicateRequest r =>
      if cfg.session.request = some r then cfg
      else cfg.closeOtherRequest r .stillOpen
  | .loseConnectionOutput => cfg.emit .wireConnectionLost
  | .storeCloseReason reason =>
      { cfg with session := { cfg.session with closeReason := some reason } }
  | .writeCloseReason r =>
      match cfg.session.closeReason with
      | some reason => cfg.closeOtherRequest r reason
      | none => cfg
  | .dropRequest =>
      { cfg with session := { cfg.session with request := none } }
  | .closeProtocol reason =>
      cfg.emit (.appConnectionLost (.passedThrough reason))
  | .timedOut reason =>
      match reason with
      | .connectionDone => cfg.emit (.appConnectionLost .sessionTimeout)
      | r => cfg.emit (.appConnectionLost (.passedThrough r))

/-- Run a list of machine outputs in order, stopping if an exception
was raised. -/
def runOutputs (recur : Cfg → MInput → Cfg) (env : Env) :
    Cfg → List MOutput → Cfg
  | cfg, [] => cfg
  | cfg, o :: os =>
      if cfg.session.err then cfg
      else runOutputs recur env (runOutput recur env cfg o) os

/-- Feed one input into the machine: move to the target state, then run
the outputs.  The fuel bounds the (statically shallow) re-entrancy of
outputs that feed further inputs into the machine; every chain in the
source has depth at most four. -/
def interp (env : Env) : Nat → Cfg → MInput → Cfg
  | 0, cfg, _ => cfg.setErr
  | fuel + 1, cfg, i =>
      if cfg.session.err then cfg
      else
        match machineStep cfg.session.machineState i with
        | none => cfg.setErr
        | some (s', outs) =>
            runOutputs (interp env fuel) env
              { cfg with session := { cfg.session with machineState := s' } } outs

/-- Feed one input into the machine with enough fuel for every chain in
the source. -/
def send (env : Env) (cfg : Cfg) (i : MInput) : Cfg :=
  interp env 8 cfg i

/-! ## The public operations of `RequestSessionProtocolWrapper` -/

/-- The calls a scenario makes on the wrapper. -/
inductive Op where
  | attach (request : Nat)
  | detach
  | write (data : List Json)
  | dataReceived (data : String)
  | writeClose (reason : Disconnect)
  | heartbeat
  | loseConnection
  | connectionLost (reason : LostReason)

/-- Run one wrapper-level operation:
`makeConnectionFromRequest`, `detachFromRequest`, `writeData`,
`dataReceived`, `writeClose`, `writeHeartbeat`, `loseConnection` (sets
`disconnecting` once, forwards to the machine, starts the timeout
clock), `connectionLost` (when not already disconnecting, errbacks the
termination deferred and stops the timeout clock, then forwards to the
machine). -/
def runOp (env : Env) (cfg : Cfg) : Op → Cfg
  | .attach r => send env cfg (.attach r)
  | .detach => send env cfg .detach
  | .write data => wrapperWriteData (send env) env cfg data
  | .dataReceived data => send env cfg (.receive data)
  | .writeClose reason => send env cfg (.writeClose reason)
  | .heartbeat => send env cfg .heartbeat
  | .loseConnection =>
      if cfg.session.disconnecting then cfg
      else
        let cfg := { cfg with session := { cfg.session with disconnecting := true } }
        let cfg := send env cfg .loseConnection
        if cfg.session.err then cfg else cfg.timeoutStart
  | .connectionLost reason =>
      if cfg.session.disconnecting then send env cfg (.connectionLost reason)
      else send env cfg.timeoutStop (.connectionLost reason)

/-- Run a scenario. -/
def runOps (env : Env) : Cfg → List Op → Cfg
  | cfg, [] => cfg
  | cfg, op :: ops =>
      if cfg.session.err then cfg
      else runOps env (runOp env cfg op) ops

/-- A plain (long-polling base class) environment whose decoder rejects
everything; the scenarios below never decode. -/
def plainEnv : Env := { transport := .plain, decode := fun _ => none }

/-- The frames written to one request, in order. -/
def writtenTo (r : Nat) (events : List Event) : List String :=
  events.filterMap fun e =>
    match e with
    | .wrote r' bytes => if r' = r then some bytes else none
    | _ => none

/-- Whether a request was finished. -/
def finishedIn (r : Nat) (events : List Event) : Bool :=
  events.any fun e =>
    match e with
    | .finishedRequest r' => r' = r
    | _ => false

/-! ## `SessionHouse` (the session registry) -/

/-- The kind of failure a session's termination deferred can carry. -/
inductive FailureKind where
  | connectionDone
  | connectionLost
  | sessionTimeout
  | other (tag : String)
deriving DecidableEq, Repr

/-- Python exceptions raised inside `SessionHouse._sessionClosed`. -/
inductive PyExc where
  | attributeError
  | keyError
deriving DecidableEq, Repr

/-- Source: `SessionHouse.validateAndExtractSessionID(request)`: tuple-unpack
`request.postpath` into exactly three segments (a `ValueError`, hence
`None`, otherwise), then reject the path if any segment is empty or
contains a `.` byte. -/
def validateAndExtractSessionID (postpath : List String) : Option String :=
  match postpath with
  | [_serverID, sessionID, _transport] =>
      if postpath.any fun identifier =>
          identifier.isEmpty || identifier.contains '.' then none
      else some sessionID
  | _ => none

/-- Source: `SessionHouse.attachToSession(factory, request)`, with
`makeSession`/`makeConnectionFromRequest` abstracted to registering the
sessionID: the returned Bool (the claim's success/failure) is decided
entirely by `validateAndExtractSessionID`. -/
def attachToSession (sessions : List String) (postpath : List String) :
    List String × Bool :=
  match validateAndExtractSessionID postpath with
  | none => (sessions, false)
  | some sessionID =>
      if sessions.contains sessionID then (sessions, true)
      else (sessions ++ [sessionID], true)

/-- Source: `SessionHouse._sessionClosed(maybeFailure, sessionID)`.  The body
first runs `del self.sessions[sessionID]` (a `KeyError` when absent).
When `maybeFailure` is a `Failure` it then evaluates
`failure.trap(error.ConnectionDone, error.ConnectionLost,
SessionTimeout)` — but `failure` names the imported module
`twisted.python.failure`, not the `maybeFailure` argument, and that
module has no attribute `trap`, so the attribute lookup raises
`AttributeError` before any trapping can happen, whatever the failure
kind.  A plain (non-`Failure`) result is returned unchanged. -/
def sessionClosed (sessions : List String) (sessionID : String)
    (maybeFailure : Option FailureKind) :
    List String × Except PyExc (Option FailureKind) :=
  if sessions.contains sessionID then
    (sessions.filter fun s => s ≠ sessionID,
     match maybeFailure with
     | some _ => .error .attributeError
     | none => .ok none)
  else (sessions, .error .keyError)

/-! ## Theorems -/

/-- A string's `isEmpty` is `false` exactly when the string is not
empty. -/
theorem isEmpty_false_iff (s : String) : s.isEmpty = false ↔ ¬ s = "" := by
  rw [← String.isEmpty_iff]
  cases s.isEmpty <;> simp

/-- C5: `attachToSession` returns failure exactly when the request path
does not consist of three non-empty segments none of which contains a
`.`.  The termination hook `_sessionClosed` does remove the registry
entry, but it evaluates `failure.trap` on the `twisted.python.failure`
module rather than on the failure instance, so every termination
failure — including `ConnectionDone`, `ConnectionLost` and
`SessionTimeout`, which the claim says are trapped — raises
`AttributeError` instead of being trapped. -/
theorem C5_registry :
    (∀ (sessions postpath : List String),
        (attachToSession sessions postpath).2 = false ↔
          validateAndExtractSessionID postpath = none)
    ∧ (∀ postpath : List String,
        validateAndExtractSessionID postpath = none ↔
          (postpath.length ≠ 3 ∨ ∃ s ∈ postpath, s = "" ∨ s.contains '.' = true))
    ∧ sessionClosed ["abc"] "abc" (some .connectionDone)
        = ([], .error .attributeError)
    ∧ (∀ (sessions : List String) (sessionID : String) (k : FailureKind),
        sessions.contains sessionID = true →
        (sessionClosed sessions sessionID (some k)).2 = .error .attributeError
        ∧ (sessionClosed sessions sessionID (some k)).1
            = sessions.filter fun s => s ≠ sessionID) := by
  refine ⟨?_, ?_, rfl, ?_⟩
  · intro sessions postpath
    rcases h : validateAndExtractSessionID postpath with _ | sid
    · simp [attachToSession, h]
    · simp [attachToSession, h]
      split <;> simp
  · intro postpath
    match postpath with
    | [a, b, c] =>
        cases h : [a, b, c].any (fun s => s.isEmpty || s.contains '.') <;>
          simp_all [validateAndExtractSessionID, String.isEmpty_iff,
                    isEmpty_false_iff]
    | [] => simp [validateAndExtractSessionID]
    | [a] => simp [validateAndExtractSessionID]
    | [a, b] => simp [validateAndExtractSessionID]
    | a :: b :: c :: e :: rest => simp [validateAndExtractSessionID]
  · intro sessions sessionID k h
    replace h : sessionID ∈ sessions := by simpa using h
    simp [sessionClosed, h]

/-- C5 witness: the theorem applied at an invalid (empty) path and at a
one-entry registry whose session terminates with `ConnectionLost`. -/
theorem C5_registry_witness :
    (attachToSession [] []).2 = false
    ∧ (sessionClosed ["s"] "s" (some .connectionLost)).2
        = .error .attributeError :=
  ⟨(C5_registry.1 [] []).mpr rfl,
   (C5_registry.2.2.2 ["s"] "s" .connectionLost rfl).1⟩

/-- C6: `SockJSWireProtocolWrapper.dataReceived` fails on empty input
with `InvalidData` carrying `Payload expected.\n`, fails on input the
JSON decoder rejects with `InvalidData` carrying
`Broken JSON encoding.\n`, hands any other input's decoded value to the
wrapped protocol, and a `receive` step never changes the session
buffer (in particular it is unchanged in both failure cases). -/
theorem C6_dataReceived_contract :
    (∀ decode : String → Option Json,
        wireDataReceived decode ""
          = .error (.invalidData "Payload expected.\n"))
    ∧ (∀ (decode : String → Option Json) (data : String),
        data ≠ "" → decode data = none →
        wireDataReceived decode data
          = .error (.invalidData "Broken JSON encoding.\n"))
    ∧ (∀ (decode : String → Option Json) (data : String) (v : Json),
        data ≠ "" → decode data = some v →
        wireDataReceived decode data = .ok v)
    ∧ (∀ (env : Env) (cfg : Cfg) (data : String),
        (send env cfg (.receive data)).session.buffer
          = cfg.session.buffer) := by
  refine ⟨fun decode => rfl, ?_, ?_, ?_⟩
  · intro decode data hne hdec
    simp [wireDataReceived, hne, hdec, NO_PAYLOAD, BAD_JSON]
  · intro decode data v hne hdec
    simp [wireDataReceived, hne, hdec]
  · intro env cfg data
    obtain ⟨⟨ms, buf, cr, req, fn, ta, te, dis, bw, er⟩, evs⟩ := cfg
    cases er <;> cases ms <;>
      simp [send, interp, machineStep, runOutputs, runOutput, Cfg.setErr,
            Cfg.emit] <;>
      rcases wireDataReceived env.decode data with e | v <;> simp

/-- C6 witness: the theorem applied to a decoder that rejects `"x"`, a
decoder that accepts it, and a `receive` of the empty payload on a
fresh session. -/
theorem C6_dataReceived_witness :
    wireDataReceived (fun _ => none) "x"
      = .error (.invalidData "Broken JSON encoding.\n")
    ∧ wireDataReceived (fun s => some (.str s)) "x" = .ok (.str "x")
    ∧ (send plainEnv initialCfg (.receive "")).session.buffer = [] := by
  refine ⟨?_, ?_, ?_⟩
  · exact C6_dataReceived_contract.2.1 (fun _ => none) "x" (by decide) rfl
  · exact C6_dataReceived_contract.2.2.1 (fun s => some (.str s)) "x"
      (.str "x") (by decide) rfl
  · exact (C6_dataReceived_contract.2.2.2 plainEnv initialCfg "").trans rfl

/-- C9: the WebSocket wrapper ignores empty byte input, closes the
connection on undecodable input, and hands a decoded value to the
wrapped protocol exactly when the value is Python-truthy — every falsy
decoded value (`null`, `false`, `0`, the empty string, the empty array,
the empty object) is silently discarded, not only literally empty
frames. -/
theorem C9_webSocket_truthy_filter :
    (∀ decode : String → Option Json,
        webSocketDataReceived decode "" = .ignored)
    ∧ (∀ (decode : String → Option Json) (data : String) (v : Json),
        data ≠ "" → decode data = some v →
        webSocketDataReceived decode data
          = if pyTruthy v then .delivered v else .discarded)
    ∧ (∀ (decode : String → Option Json) (data : String),
        data ≠ "" → decode data = none →
        webSocketDataReceived decode data = .connectionLostOnBadJson)
    ∧ pyTruthy .null = false ∧ pyTruthy (.bool false) = false
    ∧ pyTruthy (.num 0) = false ∧ pyTruthy (.str "") = false
    ∧ pyTruthy (.arr []) = false ∧ pyTruthy (.obj []) = false := by
  refine ⟨fun decode => rfl, ?_, ?_, rfl, rfl, by decide, rfl, rfl, rfl⟩
  · intro decode data v hne hdec
    simp [webSocketDataReceived, wireDataReceived, hne, hdec]
  · intro decode data hne hdec
    simp [webSocketDataReceived, wireDataReceived, hne, hdec]

/-- C9 witness: the theorem applied to decoders producing a falsy empty
array, a truthy string, and a decode failure. -/
theorem C9_webSocket_witness :
    webSocketDataReceived (fun _ => some (.arr [])) "[]" = .discarded
    ∧ webSocketDataReceived (fun _ => some (.str "m")) "\"m\""
        = .delivered (.str "m")
    ∧ webSocketDataReceived (fun _ => none) "!!!" = .connectionLostOnBadJson := by
  refine ⟨?_, ?_, ?_⟩
  · exact (C9_webSocket_truthy_filter.2.1 (fun _ => some (.arr [])) "[]"
      (.arr []) (by decide) rfl).trans rfl
  · exact (C9_webSocket_truthy_filter.2.1 (fun _ => some (.str "m")) "\"m\""
      (.str "m") (by decide) rfl).trans rfl
  · exact C9_webSocket_truthy_filter.2.2.1 (fun _ => none) "!!!" (by decide) rfl

/-- C8: a heartbeat output is produced exactly in the attached state:
the `heartbeat` input produces `directHeartbeat` in
`connectedHaveTransport`, produces no output in either detached state
(so nothing is queued — at session level the heartbeat is a complete
no-op there), and has no transition at all elsewhere. -/
theorem C8_heartbeat_iff_attached :
    machineStep .connectedHaveTransport .heartbeat
      = some (.connectedHaveTransport, [.directHeartbeat])
    ∧ machineStep .connectedNoTransportEmptyBuffer .heartbeat
      = some (.connectedNoTransportEmptyBuffer, [])
    ∧ machineStep .connectedNoTransportPending .heartbeat
      = some (.connectedNoTransportPending, [])
    ∧ machineStep .neverConnected .heartbeat = none
    ∧ machineStep .loseConnectionEmptyBuffer .heartbeat = none
    ∧ machineStep .loseConnectionPending .heartbeat = none
    ∧ machineStep .disconnected .heartbeat = none
    ∧ (∀ (env : Env) (cfg : Cfg),
        cfg.session.machineState = .connectedNoTransportEmptyBuffer ∨
          cfg.session.machineState = .connectedNoTransportPending →
        send env cfg .heartbeat = cfg) := by
  refine ⟨rfl, rfl, rfl, rfl, rfl, rfl, rfl, ?_⟩
  intro env cfg hs
  obtain ⟨⟨ms, buf, cr, req, fn, ta, te, dis, bw, er⟩, evs⟩ := cfg
  simp only at hs
  rcases hs with hs | hs <;> subst hs <;> cases er <;>
    simp [send, interp, machineStep, runOutputs]

/-- C8 witness: the theorem applied to a session detached with an empty
buffer. -/
theorem C8_heartbeat_witness :
    send plainEnv (runOps plainEnv initialCfg [.attach 1, .detach]) .heartbeat
      = runOps plainEnv initialCfg [.attach 1, .detach] :=
  C8_heartbeat_iff_attached.2.2.2.2.2.2.2 plainEnv _ (Or.inl rfl)

/-- C10: attaching the very request object that is already current (in
the attached state) is a complete no-op: `_closeDuplicateRequest`
compares by identity, so no close frame is written, the request is not
finished, and session state, current request and event log are all
unchanged. -/
theorem C10_reattach_same_request_noop :
    ∀ (env : Env) (cfg : Cfg) (r : Nat),
      cfg.session.machineState = .connectedHaveTransport →
      cfg.session.request = some r →
      send env cfg (.attach r) = cfg := by
  intro env cfg r hs hr
  obtain ⟨⟨ms, buf, cr, req, fn, ta, te, dis, bw, er⟩, evs⟩ := cfg
  simp only at hs hr
  subst hs hr
  cases er <;> simp [send, interp, machineStep, runOutputs, runOutput]

/-- C10 witness: the theorem applied to a session attached to request 1,
re-attaching request 1. -/
theorem C10_reattach_witness :
    send plainEnv (runOps plainEnv initialCfg [.attach 1]) (.attach 1)
      = runOps plainEnv initialCfg [.attach 1] :=
  C10_reattach_same_request_noop plainEnv _ 1 rfl rfl

/-- C4: at most one request is attached at any time (the attachment is
the single optional `request` field), and attaching a second, different
request while attached writes `c[2010,"Another connection still open"]`
plus a newline to the newcomer and finishes it, leaving the session —
including the incumbent request — entirely unchanged. -/
theorem C4_duplicate_attach_closes_newcomer :
    ∀ (env : Env) (cfg : Cfg) (r1 r2 : Nat),
      cfg.session.err = false →
      cfg.session.machineState = .connectedHaveTransport →
      cfg.session.request = some r1 →
      r2 ≠ r1 →
      (send env cfg (.attach r2)).session = cfg.session
      ∧ (send env cfg (.attach r2)).events
          = cfg.events ++ [.wrote r2 (closeFrame .stillOpen ++ "\n"),
                           .finishedRequest r2]
      ∧ closeFrame .stillOpen = "c[2010,\"Another connection still open\"]" := by
  intro env cfg r1 r2 he hs hr hne
  obtain ⟨⟨ms, buf, cr, req, fn, ta, te, dis, bw, er⟩, evs⟩ := cfg
  simp only at he hs hr
  subst he hs hr
  refine ⟨?_, ?_, rfl⟩ <;>
    simp [send, interp, machineStep, runOutputs, runOutput,
          Cfg.closeOtherRequest, Cfg.emit, Ne.symm hne]

/-- C4 witness: the theorem applied to a session attached to request 1,
with request 2 arriving. -/
theorem C4_duplicate_attach_witness :
    (send plainEnv (runOps plainEnv initialCfg [.attach 1]) (.attach 2)).session
      = (runOps plainEnv initialCfg [.attach 1]).session
    ∧ (send plainEnv (runOps plainEnv initialCfg [.attach 1]) (.attach 2)).events
        = (runOps plainEnv initialCfg [.attach 1]).events
            ++ [.wrote 2 (closeFrame .stillOpen ++ "\n"), .finishedRequest 2]
    ∧ closeFrame .stillOpen = "c[2010,\"Another connection still open\"]" :=
  C4_duplicate_attach_closes_newcomer plainEnv _ 1 2 rfl rfl rfl (by decide)

/-- C1 counterexample: in the S2 scenario `attach(r1); detach;
write(["a"]); write(["b"]); attach(r2)` the single data frame request 2
receives is not `a[["a"],["b"]]` plus a newline — `_bufferWrite` uses
`buffer.extend(data)`, so the two one-element lists are concatenated
and the frame is `a["a","b"]` plus a newline. -/
theorem C1_counterexample :
    ¬ writtenTo 2 (runOps plainEnv initialCfg
        [.attach 1, .detach, .write [.str "a"], .write [.str "b"],
         .attach 2]).events
      = ["a[[\"a\"],[\"b\"]]\n"] := by decide

/-- C1 (amended): a write issued while detached appends the elements of
the written list to the session buffer (in FIFO order) and emits
nothing; the next attach emits exactly one aggregated data frame whose
bytes are `a` followed by the JSON array of all buffered elements and a
newline, after which the buffer is empty; concretely, in the S2
scenario request 2 receives exactly the one frame `a["a","b"]` plus a
newline and the buffer is empty. -/
theorem C1_buffer_then_flush :
    (∀ (env : Env) (cfg : Cfg) (d : List Json),
        cfg.session.err = false →
        (cfg.session.machineState = .connectedNoTransportEmptyBuffer ∨
          cfg.session.machineState = .connectedNoTransportPending) →
        (send env cfg (.write d)).session.buffer = cfg.session.buffer ++ d
        ∧ (send env cfg (.write d)).events = cfg.events)
    ∧ (∀ (env : Env) (cfg : Cfg) (r : Nat),
        env.transport = .plain →
        cfg.session.err = false →
        cfg.session.machineState = .connectedNoTransportPending →
        cfg.session.request = none →
        (send env cfg (.attach r)).session.buffer = []
        ∧ (send env cfg (.attach r)).events
            = cfg.events ++ [.wrote r (dataFrame cfg.session.buffer ++ "\n")]
        ∧ (send env cfg (.attach r)).session.request = some r)
    ∧ writtenTo 2 (runOps plainEnv initialCfg
          [.attach 1, .detach, .write [.str "a"], .write [.str "b"],
           .attach 2]).events
        = [dataFrame [.str "a", .str "b"] ++ "\n"]
    ∧ dataFrame [.str "a", .str "b"] = "a[\"a\",\"b\"]"
    ∧ (runOps plainEnv initialCfg
          [.attach 1, .detach, .write [.str "a"], .write [.str "b"],
           .attach 2]).session.buffer = [] := by
  refine ⟨?_, ?_, rfl, rfl, rfl⟩
  · intro env cfg d he hs
    obtain ⟨⟨ms, buf, cr, req, fn, ta, te, dis, bw, er⟩, evs⟩ := cfg
    simp only at he hs
    subst he
    rcases hs with hs | hs <;> subst hs <;>
      simp [send, interp, machineStep, runOutputs, runOutput]
  · intro env cfg r ht he hs hr
    obtain ⟨⟨ms, buf, cr, req, fn, ta, te, dis, bw, er⟩, evs⟩ := cfg
    obtain ⟨t, dec⟩ := env
    simp only at ht he hs hr
    subst ht he hs hr
    simp [send, interp, machineStep, runOutputs, runOutput, wrapperWriteData,
          completeWrite, Cfg.write, Cfg.emit]

/-- C1 witness: the theorem applied to a buffered-write step and to the
flushing attach in the S2 scenario. -/
theorem C1_buffer_then_flush_witness :
    (send plainEnv (runOps plainEnv initialCfg [.attach 1, .detach])
        (.write [.str "a"])).session.buffer = [.str "a"]
    ∧ (send plainEnv
          (runOps plainEnv initialCfg [.attach 1, .detach, .write [.str "a"]])
          (.attach 2)).session.buffer = [] := by
  constructor
  · exact ((C1_buffer_then_flush.1 plainEnv _ [.str "a"] rfl (Or.inl rfl)).1).trans
      rfl
  · exact (C1_buffer_then_flush.2.1 plainEnv _ 2 rfl rfl rfl rfl).1

/-- C3 counterexample: in the S4 scenario `attach(r1); detach;
writeClose(GO_AWAY); attach(r2)` with no intervening `loseConnection`,
request 2 does not receive the close frame — it receives no frame at
all, because the attach transition from the detached-empty-buffer state
only re-opens the request and `_writeCloseReason` runs solely in the
lose-connection states. -/
theorem C3_counterexample :
    writtenTo 2 (runOps plainEnv initialCfg
        [.attach 1, .detach, .writeClose .goAway, .attach 2]).events = []
    ∧ ¬ writtenTo 2 (runOps plainEnv initialCfg
        [.attach 1, .detach, .writeClose .goAway, .attach 2]).events
      = ["c[3000,\"Go away!\"]\n"] := by decide

/-- C3 (amended): after `attach(r1); detach; writeClose(GO_AWAY);
attach(r2)` with no intervening `loseConnection`, request 2 receives no
frame at all; the session simply re-attaches it while remembering the
stored reason.  The stored close frame is emitted to a late-attaching
request only once `loseConnection` has been issued: with
`loseConnection` inserted before the late attach, request 2 receives
exactly `c[3000,"Go away!"]` plus a newline, no data frame, and is
finished. -/
theorem C3_close_then_late_attach :
    (writtenTo 2 (runOps plainEnv initialCfg
          [.attach 1, .detach, .writeClose .goAway, .attach 2]).events = []
      ∧ (runOps plainEnv initialCfg
          [.attach 1, .detach, .writeClose .goAway, .attach 2]).session.machineState
          = .connectedHaveTransport
      ∧ (runOps plainEnv initialCfg
          [.attach 1, .detach, .writeClose .goAway, .attach 2]).session.request
          = some 2
      ∧ (runOps plainEnv initialCfg
          [.attach 1, .detach, .writeClose .goAway, .attach 2]).session.closeReason
          = some .goAway)
    ∧ (writtenTo 2 (runOps plainEnv initialCfg
          [.attach 1, .detach, .writeClose .goAway, .loseConnection,
           .attach 2]).events
        = [closeFrame .goAway ++ "\n"]
      ∧ closeFrame .goAway = "c[3000,\"Go away!\"]"
      ∧ finishedIn 2 (runOps plainEnv initialCfg
          [.attach 1, .detach, .writeClose .goAway, .loseConnection,
           .attach 2]).events = true) := by
  exact ⟨⟨rfl, rfl, rfl, rfl⟩, ⟨rfl, rfl, rfl⟩⟩

/-- C2 counterexample: after `attach(r1); detach; write(["a"]);
attach(r2)` the session is attached to request 2 while the session
timeout clock is still armed — the attach transition out of the
detached-pending state runs only `_openRequest` and `_flushBuffer`,
never `beginRequest`, so the clock started by the detach is not
stopped. -/
theorem C2_counterexample :
    (runOps plainEnv initialCfg
        [.attach 1, .detach, .write [.str "a"], .attach 2]).session.request
      = some 2
    ∧ (runOps plainEnv initialCfg
        [.attach 1, .detach, .write [.str "a"], .attach 2]).session.timeoutArmed
      = true := by decide

/-- C2 (amended): the session-timeout clock is stopped by the attach
transitions that begin a request — the first attach (from
`neverConnected`) and an attach from the detached-empty-buffer state;
an attach that arrives while buffered data is pending flushes the
buffer but leaves the clock untouched; the clock is started on detach
and on `loseConnection`. -/
theorem C2_timeout_clock_transitions :
    (∀ (env : Env) (cfg : Cfg) (r : Nat),
        env.transport = .plain →
        cfg.session.err = false →
        cfg.session.machineState = .neverConnected →
        cfg.session.request = none →
        cfg.session.timeoutExpired = false →
        (send env cfg (.attach r)).session.timeoutArmed = false)
    ∧ (∀ (env : Env) (cfg : Cfg) (r : Nat),
        cfg.session.err = false →
        cfg.session.machineState = .connectedNoTransportEmptyBuffer →
        cfg.session.request = none →
        cfg.session.timeoutExpired = false →
        (send env cfg (.attach r)).session.timeoutArmed = false)
    ∧ (∀ (env : Env) (cfg : Cfg) (r : Nat),
        env.transport = .plain →
        cfg.session.err = false →
        cfg.session.machineState = .connectedNoTransportPending →
        cfg.session.request = none →
        (send env cfg (.attach r)).session.timeoutArmed
          = cfg.session.timeoutArmed)
    ∧ (∀ (env : Env) (cfg : Cfg) (r : Nat),
        cfg.session.err = false →
        cfg.session.machineState = .connectedHaveTransport →
        cfg.session.request = some r →
        cfg.session.timeoutExpired = false →
        (send env cfg .detach).session.timeoutArmed = true)
    ∧ (∀ (env : Env) (cfg : Cfg) (r : Nat),
        cfg.session.err = false →
        cfg.session.disconnecting = false →
        cfg.session.timeoutExpired = false →
        cfg.session.machineState = .connectedHaveTransport →
        cfg.session.request = some r →
        (runOp env cfg .loseConnection).session.timeoutArmed = true)
    ∧ (∀ (env : Env) (cfg : Cfg),
        cfg.session.err = false →
        cfg.session.disconnecting = false →
        cfg.session.timeoutExpired = false →
        (cfg.session.machineState = .connectedNoTransportEmptyBuffer ∨
          cfg.session.machineState = .connectedNoTransportPending) →
        (runOp env cfg .loseConnection).session.timeoutArmed = true) := by
  refine ⟨?_, ?_, ?_, ?_, ?_, ?_⟩
  · intro env cfg r ht he hs hr hx
    obtain ⟨⟨ms, buf, cr, req, fn, ta, te, dis, bw, er⟩, evs⟩ := cfg
    obtain ⟨t, dec⟩ := env
    simp only at ht he hs hr hx
    subst ht he hs hr hx
    simp [send, interp, machineStep, runOutputs, runOutput, writeOpen,
          Cfg.beginRequest, Cfg.timeoutReset, Cfg.write, Cfg.emit]
  · intro env cfg r he hs hr hx
    obtain ⟨⟨ms, buf, cr, req, fn, ta, te, dis, bw, er⟩, evs⟩ := cfg
    simp only at he hs hr hx
    subst he hs hr hx
    simp [send, interp, machineStep, runOutputs, runOutput,
          Cfg.beginRequest, Cfg.timeoutReset]
  · intro env cfg r ht he hs hr
    obtain ⟨⟨ms, buf, cr, req, fn, ta, te, dis, bw, er⟩, evs⟩ := cfg
    obtain ⟨t, dec⟩ := env
    simp only at ht he hs hr
    subst ht he hs hr
    simp [send, interp, machineStep, runOutputs, runOutput, wrapperWriteData,
          completeWrite, Cfg.write, Cfg.emit]
  · intro env cfg r he hs hr hx
    obtain ⟨⟨ms, buf, cr, req, fn, ta, te, dis, bw, er⟩, evs⟩ := cfg
    simp only at he hs hr hx
    subst he hs hr hx
    simp [send, interp, machineStep, runOutputs, runOutput,
          Cfg.finishCurrentRequest, Cfg.timeoutStart, Cfg.emit]
  · intro env cfg r he hd hx hs hr
    obtain ⟨⟨ms, buf, cr, req, fn, ta, te, dis, bw, er⟩, evs⟩ := cfg
    simp only at he hd hx hs hr
    subst he hd hx hs hr
    simp [runOp, send, interp, machineStep, runOutputs, runOutput,
          Cfg.finishCurrentRequest, Cfg.timeoutStart, Cfg.emit]
  · intro env cfg he hd hx hs
    obtain ⟨⟨ms, buf, cr, req, fn, ta, te, dis, bw, er⟩, evs⟩ := cfg
    simp only at he hd hx hs
    subst he hd hx
    rcases hs with hs | hs <;> subst hs <;>
      simp [runOp, send, interp, machineStep, runOutputs, runOutput,
            Cfg.timeoutStart, Cfg.emit]

/-- C2 witness: the theorem applied along the S2-style trace: the first
attach and an attach from the detached-empty state leave the clock
disarmed; a detach and a loseConnection arm it; the flushing attach
leaves it exactly as the detach left it (armed). -/
theorem C2_timeout_clock_witness :
    (send plainEnv initialCfg (.attach 1)).session.timeoutArmed = false
    ∧ (send plainEnv (runOps plainEnv initialCfg [.attach 1, .detach])
          (.attach 2)).session.timeoutArmed = false
    ∧ (send plainEnv
          (runOps plainEnv initialCfg [.attach 1, .detach, .write [.str "a"]])
          (.attach 2)).session.timeoutArmed
        = (runOps plainEnv initialCfg
            [.attach 1, .detach, .write [.str "a"]]).session.timeoutArmed
    ∧ (send plainEnv (runOps plainEnv initialCfg [.attach 1])
          .detach).session.timeoutArmed = true
    ∧ (runOp plainEnv (runOps plainEnv initialCfg [.attach 1])
          .loseConnection).session.timeoutArmed = true
    ∧ (runOp plainEnv (runOps plainEnv initialCfg [.attach 1, .detach])
          .loseConnection).session.timeoutArmed = true := by
  refine ⟨?_, ?_, ?_, ?_, ?_, ?_⟩
  · exact C2_timeout_clock_transitions.1 plainEnv initialCfg 1 rfl rfl rfl rfl rfl
  · exact C2_timeout_clock_transitions.2.1 plainEnv _ 2 rfl rfl rfl rfl
  · exact C2_timeout_clock_transitions.2.2.1 plainEnv _ 2 rfl rfl rfl rfl
  · exact C2_timeout_clock_transitions.2.2.2.1 plainEnv _ 1 rfl rfl rfl rfl
  · exact C2_timeout_clock_transitions.2.2.2.2.1 plainEnv _ 1 rfl rfl rfl rfl rfl
  · exact C2_timeout_clock_transitions.2.2.2.2.2 plainEnv _ rfl rfl rfl
      (Or.inl rfl)

/-- An XHRStreaming environment with `maximumBytes = 5`, used by the C7
witness. -/
def streamEnv : Env :=
  { transport := .xhrStreaming 5, decode := fun _ => none }

/-- The XHRStreaming prelude is 2048 bytes long. -/
theorem preludeBytes_length : preludeBytes.length = 2048 := by
  have h : preludeBytes.length = (List.replicate 2048 'h').length := rfl
  rw [h, List.length_replicate]

/-- C7: on its first attach an XHRStreaming session writes exactly the
2048-byte all-`h` prelude followed by a newline, then the open frame
`o` followed by a newline, in that order, and stays attached; on a
write in the attached state the `bytesWritten` counter grows by
`sum(map(len, data))`, and the write that reaches `maximumBytes`
detaches the session from the request (finishing it and zeroing the
counter) immediately — hence before the next write — while a write
below the limit leaves the session attached. -/
theorem C7_xhrStreaming_prelude_and_limit :
    (∀ (env : Env) (maximumBytes r : Nat),
        env.transport = .xhrStreaming maximumBytes →
        writtenTo r (send env initialCfg (.attach r)).events
          = [preludeBytes ++ "\n", "o" ++ "\n"]
        ∧ (send env initialCfg (.attach r)).session.request = some r
        ∧ (send env initialCfg (.attach r)).session.err = false)
    ∧ preludeBytes.length = 2048
    ∧ (∀ c ∈ preludeBytes.data, c = 'h')
    ∧ (∀ (env : Env) (maximumBytes : Nat) (cfg : Cfg) (r : Nat)
          (d : List Json) (n : Nat),
        env.transport = .xhrStreaming maximumBytes →
        cfg.session.err = false →
        cfg.session.machineState = .connectedHaveTransport →
        cfg.session.request = some r →
        cfg.session.timeoutExpired = false →
        pyLenSum d = some n →
        (maximumBytes ≤ cfg.session.bytesWritten + n →
          (send env cfg (.write d)).session.request = none
          ∧ (send env cfg (.write d)).session.bytesWritten = 0
          ∧ (send env cfg (.write d)).session.machineState
              = .connectedNoTransportEmptyBuffer
          ∧ (send env cfg (.write d)).events
              = cfg.events ++ [.wrote r (dataFrame d ++ "\n"),
                               .finishedRequest r])
        ∧ (cfg.session.bytesWritten + n < maximumBytes →
          (send env cfg (.write d)).session.request = some r
          ∧ (send env cfg (.write d)).session.bytesWritten
              = cfg.session.bytesWritten + n
          ∧ (send env cfg (.write d)).events
              = cfg.events ++ [.wrote r (dataFrame d ++ "\n")])) := by
  refine ⟨?_, preludeBytes_length,
    fun c hc => List.eq_of_mem_replicate hc, ?_⟩
  · intro env maximumBytes r ht
    obtain ⟨t, dec⟩ := env
    simp only at ht
    subst ht
    simp [send, interp, machineStep, runOutputs, runOutput, writeOpen,
          initialCfg, Cfg.beginRequest, Cfg.timeoutReset, Cfg.write,
          Cfg.emit, writtenTo]
  · intro env maximumBytes cfg r d n ht he hs hr hx hn
    obtain ⟨⟨ms, buf, cr, req, fn, ta, te, dis, bw, er⟩, evs⟩ := cfg
    obtain ⟨t, dec⟩ := env
    simp only at ht he hs hr hx
    subst ht he hs hr hx
    constructor
    · intro hcross
      simp [send, interp, machineStep, runOutputs, runOutput, completeWrite,
            Cfg.write, Cfg.emit, Cfg.finishCurrentRequest, Cfg.timeoutStart,
            hn, if_pos hcross]
    · intro hlt
      simp [send, interp, machineStep, runOutputs, runOutput, completeWrite,
            Cfg.write, Cfg.emit, hn, if_neg (not_le.mpr hlt)]

/-- C7 witness: the theorem applied with `maximumBytes = 5` to the
first attach and to a five-character write that reaches the limit. -/
theorem C7_xhrStreaming_witness :
    writtenTo 1 (send streamEnv initialCfg (.attach 1)).events
      = [preludeBytes ++ "\n", "o" ++ "\n"]
    ∧ (send streamEnv (send streamEnv initialCfg (.attach 1))
          (.write [.str "abcde"])).session.request = none
    ∧ (send streamEnv (send streamEnv initialCfg (.attach 1))
          (.write [.str "abcde"])).session.machineState
        = .connectedNoTransportEmptyBuffer := by
  refine ⟨(C7_xhrStreaming_prelude_and_limit.1 streamEnv 5 1 rfl).1, ?_, ?_⟩
  · exact ((C7_xhrStreaming_prelude_and_limit.2.2.2 streamEnv 5 _ 1
      [.str "abcde"] 5 rfl rfl rfl rfl rfl rfl).1 (by decide)).1
  · exact ((C7_xhrStreaming_prelude_and_limit.2.2.2 streamEnv 5 _ 1
      [.str "abcde"] 5 rfl rfl rfl rfl rfl rfl).1 (by decide)).2.2.1

end Txdarn
